import Mathlib

/-!
Verification development for the file-retention refresher engine
(`file_refresher.py`, class `FileRefresher`).

The Python code is shallowly embedded: pure string / date computations become
Lean functions on `List Char` / `String` / `Int`; the filesystem becomes an
explicit association list threaded through the mutating operations; fallible
OS calls are modelled by per-file injected fault fields that the embedded
`try/except` logic turns into error-list entries, exactly as the source does.

Simplifications that are deliberate and documented:
* Python's `\d` and `\s` regex classes and `str.lower()` are Unicode-aware;
  the embedding uses ASCII digits, an explicit whitespace character set
  matching CPython's whitespace handling on the common characters, and ASCII
  lowering.  No claim in this development depends on the difference.
* `datetime` values are calendar tuples; comparison and subtraction are
  modelled on the epoch-microsecond timeline via a civil-calendar conversion.
-/

/-- Characters matched by CPython's `\s` (for `str` patterns) on the
whitespace characters that occur in practice. -/
def isPySpace (c : Char) : Bool :=
  c = ' ' || c = '\t' || c = '\n' || c = '\r' || c = '\x0b' || c = '\x0c' ||
  c = '\x1c' || c = '\x1d' || c = '\x1e' || c = '\x1f' || c = '\x85' || c = '\xa0' ||
  c = ' ' || (0x2000 ≤ c.toNat && c.toNat ≤ 0x200a) ||
  c = ' ' || c = ' ' || c = ' ' || c = ' ' || c = '　'

/-- Helper for the tail of the date-prefix regexes when everything after the
date is whitespace: Python's backtracking gives back the smallest suffix of
the whitespace run that `(.+)$` can take.  The input is the reversed
whitespace run; the result is the single character that `(.+)` captures, if
any (the last character, or the one before a single trailing newline). -/
def wsTailPick : List Char → Option Char
  | c1 :: c2 :: rest =>
    if c1 ≠ '\n' then some c1
    else
      match rest with
      | _ :: _ => if c2 ≠ '\n' then some c2 else none
      | [] => none
  | _ => none

/-- Matching of `\s+(.+)$` (CPython `re` semantics: `\s+` greedy with
backtracking, `.` excludes `'\n'`, `$` matches at the end of the string or
just before one final newline) against the characters following the
`YYYY?MM?DD` part of the two date-prefix regexes of `FileRefresher.__init__`.
Returns the text captured by `(.+)`. -/
def pyMatchTail (t : List Char) : Option (List Char) :=
  if t.takeWhile isPySpace = [] then none
  else if t.dropWhile isPySpace = [] then (wsTailPick t.reverse).map (fun c => [c])
  else if (t.dropWhile isPySpace).getLast? = some '\n' then
    if '\n' ∈ (t.dropWhile isPySpace).dropLast then none
    else some (t.dropWhile isPySpace).dropLast
  else
    if '\n' ∈ t.dropWhile isPySpace then none
    else some (t.dropWhile isPySpace)

/-- `re.match` for the anchored pattern
`^(\d{4})<sep>(\d{2})<sep>(\d{2})\s+(.+)$` of `FileRefresher.__init__`
(`date_pattern_dots` with `sep = '.'`, `date_pattern_hyphens` with
`sep = '-'`).  Returns the four captured groups. -/
def matchDatePattern (sep : Char) (s : String) : Option (String × String × String × String) :=
  match s.data with
  | y1 :: y2 :: y3 :: y4 :: s1 :: m1 :: m2 :: s2 :: d1 :: d2 :: tail =>
    if y1.isDigit && y2.isDigit && y3.isDigit && y4.isDigit && s1 = sep &&
       m1.isDigit && m2.isDigit && s2 = sep && d1.isDigit && d2.isDigit then
      match pyMatchTail tail with
      | some rest => some (⟨[y1, y2, y3, y4]⟩, ⟨[m1, m2]⟩, ⟨[d1, d2]⟩, ⟨rest⟩)
      | none => none
    else none
  | _ => none

/-- `self.date_pattern_dots.match name` -/
def matchDots (name : String) : Option (String × String × String × String) :=
  matchDatePattern '.' name

/-- `self.date_pattern_hyphens.match name` -/
def matchHyphens (name : String) : Option (String × String × String × String) :=
  matchDatePattern '-' name

/-- The three non-`None` rename reasons returned by
`FileRefresher.needs_rename`. -/
inductive RenameReason where
  | already_has_dots
  | convert_hyphens
  | add_date
deriving DecidableEq, Repr

/-- `FileRefresher.needs_rename` (file_refresher.py lines 521-538), on a
descriptor's extension and final name component.  `renameExtensions` is the
stored `self.rename_extensions` list. -/
def needs_rename (renameExtensions : List String) (extension name : String) :
    Bool × Option RenameReason :=
  if renameExtensions.contains extension = false then (false, none)
  else if (matchDots name).isSome then (false, some .already_has_dots)
  else if (matchHyphens name).isSome then (true, some .convert_hyphens)
  else (true, some .add_date)

/-- ASCII model of `str.lower()`. -/
def pyLower (s : String) : String := ⟨s.data.map Char.toLower⟩

/-- `self.rename_extensions = [ext.lower() for ext in config]`
(file_refresher.py line 47). -/
def mkRenameExtensions (raw : List String) : List String := raw.map pyLower

/-- A `datetime.datetime` value as a calendar tuple (Python keeps years in
`1..9999`; the model does not restrict the fields, and all arithmetic and
comparison go through `PyDateTime.toMicros`). -/
structure PyDateTime where
  year : Nat
  month : Nat
  day : Nat
  hour : Nat
  minute : Nat
  second : Nat
  usec : Nat
deriving DecidableEq, Repr

/-- Days since 1970-01-01 of a civil date (standard civil-from-days inverse;
all intermediate divisions act on non-negative values for years ≥ 1). -/
def daysFromCivil (y m d : Int) : Int :=
  let y' := if m ≤ 2 then y - 1 else y
  let era := (if 0 ≤ y' then y' else y' - 399) / 400
  let yoe := y' - era * 400
  let mp := (m + 9) % 12
  let doy := (153 * mp + 2) / 5 + d - 1
  let doe := yoe * 365 + yoe / 4 - yoe / 100 + doy
  era * 146097 + doe - 719468

/-- Position of a `PyDateTime` on the epoch-microsecond timeline; `datetime`
comparison and subtraction are modelled through this. -/
def PyDateTime.toMicros (dt : PyDateTime) : Int :=
  ((daysFromCivil dt.year dt.month dt.day) * 86400 +
   dt.hour * 3600 + dt.minute * 60 + dt.second) * 1000000 + dt.usec

/-- Microseconds of `timedelta(days=1)`. -/
def microsPerDay : Int := 86400000000

/-- `FileRefresher.needs_date_update` (lines 516-519):
`modified < datetime.now() - timedelta(days=days_threshold)`. -/
def needs_date_update (daysThreshold : Int) (now modified : PyDateTime) : Bool :=
  decide (modified.toMicros < now.toMicros - daysThreshold * microsPerDay)

/-- Two-digit zero-padded decimal, as `%m` / `%d` render. -/
def pad2 (n : Nat) : String := if n < 10 then "0" ++ toString n else toString n

/-- Four-digit zero-padded decimal, as `%Y` renders for the `datetime` year
range that occurs here. -/
def pad4 (n : Nat) : String :=
  if n < 10 then "000" ++ toString n
  else if n < 100 then "00" ++ toString n
  else if n < 1000 then "0" ++ toString n
  else toString n

/-- `dt.strftime('%Y.%m.%d')`. -/
def fmtDotted (dt : PyDateTime) : String :=
  pad4 dt.year ++ "." ++ pad2 dt.month ++ "." ++ pad2 dt.day

/-- The string built at file_refresher.py line 549:
`f"{year}.{month}.{day} {rest}"`. -/
def convertName (y m d rest : String) : String :=
  y ++ "." ++ m ++ "." ++ d ++ " " ++ rest

/-- `FileRefresher.get_new_filename` (lines 540-556), on the descriptor's
final name component and `modified` timestamp. -/
def get_new_filename (name : String) (modified : PyDateTime)
    (rename_reason : Option RenameReason) : String :=
  match rename_reason with
  | some .convert_hyphens =>
    match matchHyphens name with
    | some (y, m, d, rest) => convertName y m d rest
    | none => name
  | some .add_date => fmtDotted modified ++ " " ++ name
  | _ => name

/-- A resolved `pathlib.Path` of a file: its parent directory and final name
component.  Renames stay within the parent (`file_path.parent / new_name`). -/
structure PyPath where
  dir : String
  name : String
deriving DecidableEq, Repr

/-- Kind of OS exception an injected fault raises, mirroring the distinct
`except` arms of the source. -/
inductive ExcKind where
  | permError
  | osError
  | otherError
deriving DecidableEq, Repr

/-- On-disk state of one file, together with fault injections for the OS
calls the source wraps in `try/except` (`rename`, `utime`, `chmod`). -/
structure FileState where
  mtime : PyDateTime
  writable : Bool
  renameFault : Option ExcKind
  utimeFault : Option ExcKind
  chmodFails : Bool
  chmodRestoreFails : Bool
deriving DecidableEq, Repr

/-- The filesystem: an association list from paths to file states. -/
abbrev FS := List (PyPath × FileState)

def fsLookup (fs : FS) (p : PyPath) : Option FileState :=
  (fs.find? (fun e => e.1 = p)).map (·.2)

/-- `path.exists()` -/
def fsExists (fs : FS) (p : PyPath) : Bool := (fsLookup fs p).isSome

/-- `old.rename(new)`: the entry moves key, state unchanged. -/
def fsRename (fs : FS) (old new : PyPath) : FS :=
  fs.map (fun e => if e.1 = old then (new, e.2) else e)

/-- `os.utime(p, (ts, ts))` on the model (only the modification time is
tracked). -/
def fsSetMtime (fs : FS) (p : PyPath) (t : PyDateTime) : FS :=
  fs.map (fun e => if e.1 = p then (e.1, { e.2 with mtime := t }) else e)

/-- `p.chmod(...)` restricted to the owner-write bit the source toggles. -/
def fsSetWritable (fs : FS) (p : PyPath) (b : Bool) : FS :=
  fs.map (fun e => if e.1 = p then (e.1, { e.2 with writable := b }) else e)

/-- The non-fatal error strings the engine appends to `self.errors`,
abstracted to their kind and subject. -/
inductive Err where
  | targetExists (p : PyPath)
  | filenameTooLong (n : String)
  | permissionDeniedRename (p : PyPath)
  | osErrorRename (p : PyPath)
  | unexpectedRename (p : PyPath)
  | readOnlyCannotModify (p : PyPath)
  | permissionDeniedUpdate (p : PyPath)
  | errorUpdating (p : PyPath)
  | csvFileNotFound (p : PyPath)
  | invalidDateCsv (p : PyPath)
  | loadCsvFailed
deriving DecidableEq, Repr

/-- `FileRefresher.rename_file` (lines 608-663).  Returns the value the
method returns (`str(new_path)` on success / `None` on failure, as an
`Option`), the filesystem after the call, and the errors appended. -/
def rename_file (fs : FS) (p : PyPath) (new_name : String) :
    Option PyPath × FS × List Err :=
  let new_path : PyPath := ⟨p.dir, new_name⟩
  if fsExists fs new_path then
    if p.name = new_name then (some new_path, fs, [])
    else (none, fs, [.targetExists new_path])
  else if 255 < new_name.length then (none, fs, [.filenameTooLong new_name])
  else
    match fsLookup fs p with
    | none => (none, fs, [.osErrorRename p])
    | some st =>
      match st.renameFault with
      | some .permError => (none, fs, [.permissionDeniedRename p])
      | some .osError => (none, fs, [.osErrorRename p])
      | some .otherError => (none, fs, [.unexpectedRename p])
      | none => (some new_path, fsRename fs p new_path, [])

/-- `FileRefresher.update_file_modified_date` (lines 558-606), called with
`new_date=None` so the new time is `now`.  Returns the boolean result, the
filesystem after the call, and the errors appended.  A missing file fails the
`os.access` check and then raises inside the read-only branch, producing the
"Cannot modify read-only file" error.  When the write bit had to be granted
and `utime` then fails, the granted bit is left in place (the source only
restores permissions after a successful `utime`); when restoring fails, the
failure is swallowed. -/
def update_file_modified_date (fs : FS) (now : PyDateTime) (p : PyPath) :
    Bool × FS × List Err :=
  match fsLookup fs p with
  | none => (false, fs, [.readOnlyCannotModify p])
  | some st =>
    if st.writable then
      match st.utimeFault with
      | some .permError => (false, fs, [.permissionDeniedUpdate p])
      | some _ => (false, fs, [.errorUpdating p])
      | none => (true, fsSetMtime fs p now, [])
    else
      if st.chmodFails then (false, fs, [.readOnlyCannotModify p])
      else
        let fs1 := fsSetWritable fs p true
        match st.utimeFault with
        | some .permError => (false, fs1, [.permissionDeniedUpdate p])
        | some _ => (false, fs1, [.errorUpdating p])
        | none =>
          let fs2 := fsSetMtime fs1 p now
          let fs3 := if st.chmodRestoreFails then fs2 else fsSetWritable fs2 p false
          (true, fs3, [])

/-- A file descriptor dict as built by `scan_directory` (lines 443-448) or
`load_csv_file_list` (lines 843-850): `path`, `size`, `modified`,
`extension`. -/
structure FileInfo where
  path : PyPath
  size : Int
  modified : PyDateTime
  extension : String
deriving DecidableEq, Repr

/-- Engine configuration the classifier consumes: the stored
`self.rename_extensions` and `self.days_threshold`. -/
structure Config where
  renameExtensions : List String
  daysThreshold : Int
deriving Repr

/-- One row of the outcome ledger, as initialised at file_refresher.py
lines 667-676 and updated during `process_file`. -/
structure ProcResult where
  original_path : PyPath
  new_path : PyPath
  original_modified : PyDateTime
  new_modified : PyDateTime
  extension : String
  size_bytes : Int
  renamed : Bool
  date_updated : Bool
deriving DecidableEq, Repr

/-- The initial `result` dict of `process_file` (lines 667-676); the
extension column drops every `'.'` (`str.replace('.', '')`). -/
def initResult (fi : FileInfo) : ProcResult :=
  { original_path := fi.path
    new_path := fi.path
    original_modified := fi.modified
    new_modified := fi.modified
    extension := ⟨fi.extension.data.filter (fun c => c ≠ '.')⟩
    size_bytes := fi.size
    renamed := false
    date_updated := false }

/-- Lines 691-695 of `process_file`: `if new_path:` the result records the
new path and `renamed = True`; otherwise the result is left untouched. -/
def applyRenameResult (r0 : ProcResult) (res : Option PyPath) : ProcResult :=
  match res with
  | some np => { r0 with new_path := np, renamed := true }
  | none => r0

/-- The rename step of `process_file` (lines 681-695).  In dry-run the
target path is recorded and `renamed` set with no filesystem access or
collision / length checks; live mode goes through `rename_file`. -/
def renameStep (dry : Bool) (fs : FS) (fi : FileInfo) (r0 : ProcResult)
    (new_filename : String) : ProcResult × FS × List Err :=
  if dry then
    ({ r0 with new_path := ⟨fi.path.dir, new_filename⟩, renamed := true }, fs, [])
  else
    match rename_file fs fi.path new_filename with
    | (res, fs1, es) => (applyRenameResult r0 res, fs1, es)

/-- The date-refresh step of `process_file` (lines 698-708), acting on
`result['new_path']`. -/
def dateStep (dry : Bool) (now : PyDateTime) (fs1 : FS) (r1 : ProcResult) :
    ProcResult × FS × List Err :=
  if dry then
    ({ r1 with new_modified := now, date_updated := true }, fs1, [])
  else
    match update_file_modified_date fs1 now r1.new_path with
    | (true, fs2, es) => ({ r1 with new_modified := now, date_updated := true }, fs2, es)
    | (false, fs2, es) => (r1, fs2, es)

/-- `FileRefresher.process_file` (lines 665-710).  `now` stands for the
`datetime.now()` calls made while processing this file.  (The write to
`file_info['path']` at line 695 is not observable from within the method:
the date check reads the unchanged `modified` and the date update acts on
`result['new_path']`.) -/
def process_file (cfg : Config) (dry : Bool) (now : PyDateTime) (fs : FS)
    (fi : FileInfo) : ProcResult × FS × List Err :=
  let r0 := initResult fi
  let nr := needs_rename cfg.renameExtensions fi.extension fi.path.name
  let step1 :=
    if nr.1 then renameStep dry fs fi r0 (get_new_filename fi.path.name fi.modified nr.2)
    else (r0, fs, [])
  match step1 with
  | (r1, fs1, es1) =>
    if needs_date_update cfg.daysThreshold now fi.modified then
      match dateStep dry now fs1 r1 with
      | (r2, fs2, es2) => (r2, fs2, es1 ++ es2)
    else (r1, fs1, es1)

/-- The processing loops of `process_directory_with_progress` /
`process_csv_files_with_progress` / `main` (one `process_file` per
descriptor, in order, appending every result). -/
def process_files (cfg : Config) (dry : Bool) (now : PyDateTime) :
    FS → List FileInfo → List ProcResult × FS × List Err
  | fs, [] => ([], fs, [])
  | fs, fi :: rest =>
    match process_file cfg dry now fs fi with
    | (r, fs1, es) =>
      match process_files cfg dry now fs1 rest with
      | (rs, fs2, es') => (r :: rs, fs2, es ++ es')

def digitVal (c : Char) : Nat := c.toNat - 48

/-- `%Y` in `_strptime`: exactly four digits. -/
def parseYear4 : List Char → Option (Nat × List Char)
  | c1 :: c2 :: c3 :: c4 :: rest =>
    if c1.isDigit && c2.isDigit && c3.isDigit && c4.isDigit then
      some (digitVal c1 * 1000 + digitVal c2 * 100 + digitVal c3 * 10 + digitVal c4, rest)
    else none
  | _ => none

/-- `%m` in `_strptime`: `1[0-2]|0[1-9]|[1-9]` (a two-digit alternative can
never lose to the one-digit one here, because the following literal is not a
digit). -/
def parseMonth : List Char → Option (Nat × List Char)
  | c1 :: c2 :: rest =>
    if c1 = '1' && '0' ≤ c2 && c2 ≤ '2' then some (10 + digitVal c2, rest)
    else if c1 = '0' && '1' ≤ c2 && c2 ≤ '9' then some (digitVal c2, rest)
    else if '1' ≤ c1 && c1 ≤ '9' then some (digitVal c1, c2 :: rest)
    else none
  | [c1] => if '1' ≤ c1 && c1 ≤ '9' then some (digitVal c1, []) else none
  | [] => none

/-- `%d` in `_strptime`: `3[01]|[12]\d|0[1-9]|[1-9]`. -/
def parseDay : List Char → Option (Nat × List Char)
  | c1 :: c2 :: rest =>
    if c1 = '3' && ('0' ≤ c2 && c2 ≤ '1') then some (30 + digitVal c2, rest)
    else if ('1' ≤ c1 && c1 ≤ '2') && c2.isDigit then some (digitVal c1 * 10 + digitVal c2, rest)
    else if c1 = '0' && '1' ≤ c2 && c2 ≤ '9' then some (digitVal c2, rest)
    else if '1' ≤ c1 && c1 ≤ '9' then some (digitVal c1, c2 :: rest)
    else none
  | [c1] => if '1' ≤ c1 && c1 ≤ '9' then some (digitVal c1, []) else none
  | [] => none

/-- `%H` in `_strptime`: `2[0-3]|[0-1]\d|\d`. -/
def parseHour : List Char → Option (Nat × List Char)
  | c1 :: c2 :: rest =>
    if c1 = '2' && ('0' ≤ c2 && c2 ≤ '3') then some (20 + digitVal c2, rest)
    else if ('0' ≤ c1 && c1 ≤ '1') && c2.isDigit then some (digitVal c1 * 10 + digitVal c2, rest)
    else if c1.isDigit then some (digitVal c1, c2 :: rest)
    else none
  | [c1] => if c1.isDigit then some (digitVal c1, []) else none
  | [] => none

/-- `%M` and `%S` in `_strptime`: `[0-5]\d|\d`. -/
def parseMinSec : List Char → Option (Nat × List Char)
  | c1 :: c2 :: rest =>
    if ('0' ≤ c1 && c1 ≤ '5') && c2.isDigit then some (digitVal c1 * 10 + digitVal c2, rest)
    else if c1.isDigit then some (digitVal c1, c2 :: rest)
    else none
  | [c1] => if c1.isDigit then some (digitVal c1, []) else none
  | [] => none

/-- A literal (non-whitespace) character of the format string. -/
def parseLit (c : Char) : List Char → Option (List Char)
  | d :: rest => if d = c then some rest else none
  | [] => none

/-- Whitespace in a `strptime` format matches `\s+` in the input. -/
def parseWs (cs : List Char) : Option (List Char) :=
  match cs with
  | d :: rest => if isPySpace d then some (rest.dropWhile isPySpace) else none
  | [] => none

def isLeapYear (y : Nat) : Bool := y % 4 = 0 && (y % 100 ≠ 0 || y % 400 = 0)

def daysInMonth (y m : Nat) : Nat :=
  if m = 2 then (if isLeapYear y then 29 else 28)
  else if m = 4 || m = 6 || m = 9 || m = 11 then 30
  else 31

/-- `datetime.strptime(s, '%Y-%m-%d %H:%M:%S')` (used at lines 835-836):
the `_strptime` regex match, the "unconverted data remains" check, and the
`datetime` constructor's range validation (year ≥ 1, day within month). -/
def pyStrptime (s : String) : Option PyDateTime :=
  match parseYear4 s.data with
  | none => none
  | some (y, r1) =>
    match parseLit '-' r1 with
    | none => none
    | some r2 =>
      match parseMonth r2 with
      | none => none
      | some (mo, r3) =>
        match parseLit '-' r3 with
        | none => none
        | some r4 =>
          match parseDay r4 with
          | none => none
          | some (d, r5) =>
            match parseWs r5 with
            | none => none
            | some r6 =>
              match parseHour r6 with
              | none => none
              | some (h, r7) =>
                match parseLit ':' r7 with
                | none => none
                | some r8 =>
                  match parseMinSec r8 with
                  | none => none
                  | some (mi, r9) =>
                    match parseLit ':' r9 with
                    | none => none
                    | some r10 =>
                      match parseMinSec r10 with
                      | none => none
                      | some (se, r11) =>
                        if r11 = [] && 1 ≤ y && d ≤ daysInMonth y mo then
                          some ⟨y, mo, d, h, mi, se, 0⟩
                        else none

/-- Digits with single underscores between them, after the sign of an
`int()` literal. -/
def pyDigitsGo : List Char → Nat → Option Nat
  | [], acc => some acc
  | '_' :: c :: rest, acc =>
    if c.isDigit then pyDigitsGo rest (acc * 10 + digitVal c) else none
  | c :: rest, acc =>
    if c.isDigit then pyDigitsGo rest (acc * 10 + digitVal c) else none

/-- `int(s)` for a decimal string (used at line 845 on `row['size_bytes']`):
surrounding whitespace stripped, optional sign, non-empty digit run with
single underscores allowed between digits; `None` models `ValueError`. -/
def pyInt (s : String) : Option Int :=
  let cs := ((s.data.dropWhile isPySpace).reverse.dropWhile isPySpace).reverse
  match cs with
  | [] => none
  | c :: rest =>
    let signed : Int × List Char :=
      if c = '-' then (-1, rest) else if c = '+' then (1, rest) else (1, c :: rest)
    match signed.2 with
    | [] => none
    | d :: rest' =>
      if d.isDigit then (pyDigitsGo rest' (digitVal d)).map (fun n => signed.1 * n)
      else none

/-- `f".{ext}" if not ext.startswith('.') else ext` (line 847). -/
def normalizeExt (e : String) : String :=
  match e.data with
  | '.' :: _ => e
  | _ => "." ++ e

/-- One row of a replay CSV, with the five required columns as raw strings
(`new_path` already as a path). -/
structure CsvRow where
  new_path : PyPath
  original_modified : String
  new_modified : String
  extension : String
  size_bytes : String
deriving Repr

/-- The row loop of `FileRefresher.load_csv_file_list` (lines 823-850).
`acc` holds the `files` list built so far and `errs` the errors appended so
far; a missing file or unparseable timestamp appends an error and moves on;
a `size_bytes` for which `int()` raises escapes the loop to the outer
`except`, which appends one error and returns `[]` (the already-collected
rows are discarded, the errors are kept). -/
def loadGo (fs : FS) : List CsvRow → List FileInfo → List Err → List FileInfo × List Err
  | [], acc, errs => (acc, errs)
  | row :: rest, acc, errs =>
    if fsExists fs row.new_path then
      match pyStrptime row.original_modified, pyStrptime row.new_modified with
      | some om, some _ =>
        match pyInt row.size_bytes with
        | some sz =>
          loadGo fs rest
            (acc ++ [{ path := row.new_path, size := sz, modified := om,
                       extension := normalizeExt row.extension }]) errs
        | none => ([], errs ++ [.loadCsvFailed])
      | _, _ => loadGo fs rest acc (errs ++ [.invalidDateCsv row.new_path])
    else loadGo fs rest acc (errs ++ [.csvFileNotFound row.new_path])

/-- `FileRefresher.load_csv_file_list` (lines 815-861) on the parsed rows of
the CSV: the returned file list and the errors appended to `self.errors`. -/
def load_csv_file_list (fs : FS) (rows : List CsvRow) : List FileInfo × List Err :=
  loadGo fs rows [] []

/-- Whether the row loop of `load_csv_file_list` escapes to the outer
`except` (an `int()` failure on a row that passed the existence and
timestamp checks). -/
def csvAborts (fs : FS) : List CsvRow → Bool
  | [] => false
  | row :: rest =>
    if fsExists fs row.new_path then
      match pyStrptime row.original_modified, pyStrptime row.new_modified with
      | some _, some _ =>
        match pyInt row.size_bytes with
        | some _ => csvAborts fs rest
        | none => true
      | _, _ => csvAborts fs rest
    else csvAborts fs rest

/-- Helper: the head of `dropWhile p` does not satisfy `p`. -/
theorem dropWhile_head_not (p : Char → Bool) (l : List Char) (c : Char) (rest : List Char)
    (h : l.dropWhile p = c :: rest) : p c = false := by
  induction l with
  | nil => simp at h
  | cons a t ih =>
    rw [List.dropWhile_cons] at h
    split at h
    · exact ih h
    · next ha => injection h with h1 _; subst h1; simpa using ha

/-- Helper: `wsTailPick` never returns a newline. -/
theorem wsTailPick_ne_newline (l : List Char) (c : Char) (h : wsTailPick l = some c) :
    c ≠ '\n' := by
  unfold wsTailPick at h
  split at h
  · split at h
    · cases h; assumption
    · split at h
      · split at h
        · cases h; assumption
        · exact absurd h (by simp)
      · exact absurd h (by simp)
  · exact absurd h (by simp)

/-- Helper: `getLast?` returns an element of the list. -/
theorem getLast?_mem_of (l : List Char) (c : Char) (h : l.getLast? = some c) : c ∈ l := by
  obtain ⟨hne, heq⟩ := List.mem_getLast?_eq_getLast (l := l) (x := c) (Option.mem_def.mpr h)
  exact heq ▸ List.getLast_mem hne

/-- Helper: a space followed by a newline-free block whose head is not
whitespace is matched by `pyMatchTail` with exactly that block captured. -/
theorem pyMatchTail_space_nonws (rh : Char) (rt : List Char)
    (hh : isPySpace rh = false) (hc : '\n' ∉ rh :: rt) :
    pyMatchTail (' ' :: rh :: rt) = some (rh :: rt) := by
  have hsp : isPySpace ' ' = true := by decide
  have htake : (' ' :: rh :: rt).takeWhile isPySpace = [' '] := by
    simp [List.takeWhile_cons, hsp, hh]
  have hdrop : (' ' :: rh :: rt).dropWhile isPySpace = rh :: rt := by
    simp [List.dropWhile_cons, hsp, hh]
  have hlast : ¬ (rh :: rt).getLast? = some '\n' := by
    intro hx
    exact hc (getLast?_mem_of _ _ hx)
  unfold pyMatchTail
  rw [htake, hdrop]
  simp [hlast, hc]

/-- Helper: a singleton non-newline character is matched by `pyMatchTail`
after a single space (whether or not the character is whitespace). -/
theorem pyMatchTail_space_single (c : Char) (hc : c ≠ '\n') :
    pyMatchTail [' ', c] = some [c] := by
  have hsp : isPySpace ' ' = true := by decide
  by_cases hw : isPySpace c = true
  · have htake : ([' ', c]).takeWhile isPySpace = [' ', c] := by
      simp [List.takeWhile_cons, hsp, hw]
    have hdrop : ([' ', c]).dropWhile isPySpace = [] := by
      simp [List.dropWhile_cons, hsp, hw]
    unfold pyMatchTail
    rw [htake, hdrop]
    simp [wsTailPick, hc]
  · exact pyMatchTail_space_nonws c [] (by simpa using hw) (by simpa using Ne.symm hc)

/-- Helper: the text captured by `\s+(.+)$` is recaptured verbatim when
re-matched after a single space (the shape `convert` produces). -/
theorem pyMatchTail_cons_space (t rl : List Char) (h : pyMatchTail t = some rl) :
    pyMatchTail (' ' :: rl) = some rl := by
  unfold pyMatchTail at h
  split at h
  · exact absurd h (by simp)
  · split at h
    · -- all-whitespace tail: the capture is a single non-newline character
      obtain ⟨c, hpick, hrl⟩ := Option.map_eq_some'.mp h
      subst hrl
      exact pyMatchTail_space_single c (wsTailPick_ne_newline _ _ hpick)
    · next hne =>
      split at h
      · -- drops one trailing newline
        next hlast =>
        split at h
        · exact absurd h (by simp)
        · next hmem =>
          cases h
          -- rl = (dropWhile).dropLast; its head is the dropWhile head, non-ws
          obtain ⟨rh, rt, hR⟩ := List.exists_cons_of_ne_nil hne
          have hrh : isPySpace rh = false := dropWhile_head_not _ _ _ _ hR
          have hrt : rt ≠ [] := by
            intro h0
            rw [h0] at hR
            rw [hR] at hlast
            simp at hlast
            have : isPySpace '\n' = true := by decide
            rw [hlast] at hrh
            simp [this] at hrh
          obtain ⟨b, rt2, hrt2⟩ := List.exists_cons_of_ne_nil hrt
          rw [hR, hrt2] at hmem ⊢
          have hdl : (rh :: b :: rt2).dropLast = rh :: (b :: rt2).dropLast := rfl
          rw [hdl] at hmem ⊢
          exact pyMatchTail_space_nonws rh ((b :: rt2).dropLast) hrh hmem
      · next hlast =>
        split at h
        · exact absurd h (by simp)
        · next hmem =>
          cases h
          obtain ⟨rh, rt, hR⟩ := List.exists_cons_of_ne_nil hne
          have hrh : isPySpace rh = false := dropWhile_head_not _ _ _ _ hR
          rw [hR] at hmem ⊢
          exact pyMatchTail_space_nonws rh rt hrh hmem

theorem strData_mk (l : List Char) : (String.mk l).data = l := rfl

/-- Helper: building a name from four valid groups and a tail accepted by
`pyMatchTail` yields a match of the date pattern with exactly those
groups. -/
theorem matchDatePattern_build (sep y1 y2 y3 y4 m1 m2 d1 d2 : Char) (tail rest : List Char)
    (hd : (y1.isDigit && y2.isDigit && y3.isDigit && y4.isDigit && m1.isDigit && m2.isDigit
           && d1.isDigit && d2.isDigit) = true)
    (ht : pyMatchTail tail = some rest) :
    matchDatePattern sep ⟨y1 :: y2 :: y3 :: y4 :: sep :: m1 :: m2 :: sep :: d1 :: d2 :: tail⟩
      = some (⟨[y1, y2, y3, y4]⟩, ⟨[m1, m2]⟩, ⟨[d1, d2]⟩, ⟨rest⟩) := by
  unfold matchDatePattern
  simp only [strData_mk]
  simp only [Bool.and_eq_true] at hd
  obtain ⟨⟨⟨⟨⟨⟨⟨h1, h2⟩, h3⟩, h4⟩, h5⟩, h6⟩, h7⟩, h8⟩ := hd
  simp [h1, h2, h3, h4, h5, h6, h7, h8, ht]

/-- C7: converting a hyphenated match and re-parsing under the dotted
grammar returns the same groups. -/
theorem convert_hyphens_roundtrip (s y m d r : String)
    (h : matchHyphens s = some (y, m, d, r)) :
    matchDots (convertName y m d r) = some (y, m, d, r) := by
  unfold matchHyphens matchDatePattern at h
  split at h
  next y1 y2 y3 y4 s1 m1 m2 s2 d1 d2 tail hdata =>
    split at h
    · next hcond =>
      cases hrest : pyMatchTail tail with
      | none => rw [hrest] at h; exact absurd h (by simp)
      | some rest =>
        rw [hrest] at h
        simp only [Option.some.injEq, Prod.mk.injEq] at h
        obtain ⟨hy, hm, hd, hr⟩ := h
        subst hy; subst hm; subst hd; subst hr
        have hds := hcond
        simp only [Bool.and_eq_true, decide_eq_true_eq] at hds
        obtain ⟨⟨⟨⟨⟨⟨⟨⟨⟨h1, h2⟩, h3⟩, h4⟩, h5⟩, h6⟩, h7⟩, h8⟩, h9⟩, h10⟩ := hds
        have hs : convertName ⟨[y1, y2, y3, y4]⟩ ⟨[m1, m2]⟩ ⟨[d1, d2]⟩ ⟨rest⟩
            = (⟨y1 :: y2 :: y3 :: y4 :: '.' :: m1 :: m2 :: '.' :: d1 :: d2 :: ' ' :: rest⟩ :
                String) := rfl
        unfold matchDots
        rw [hs]
        exact matchDatePattern_build '.' y1 y2 y3 y4 m1 m2 d1 d2 (' ' :: rest) rest
          (by simp [h1, h2, h3, h4, h6, h7, h9, h10])
          (pyMatchTail_cons_space tail rest hrest)
    · exact absurd h (by simp)
  next => exact absurd h (by simp)

/-- Witness for C7 at the spec's example filename. -/
theorem convert_hyphens_roundtrip_witness :
    matchHyphens "2020-03-14 Budget Draft.xlsx" = some ("2020", "03", "14", "Budget Draft.xlsx") ∧
    matchDots (convertName "2020" "03" "14" "Budget Draft.xlsx")
      = some ("2020", "03", "14", "Budget Draft.xlsx") :=
  ⟨by decide, convert_hyphens_roundtrip "2020-03-14 Budget Draft.xlsx" _ _ _ _ (by decide)⟩

/-- C6: `needs_date_update` is true exactly when `now` minus the
descriptor's `modified` strictly exceeds the threshold in days, so a file
whose age is exactly the threshold is not refreshed. -/
theorem needs_date_update_strict (t : Int) (now modified : PyDateTime) :
    (needs_date_update t now modified = true ↔
      t * microsPerDay < now.toMicros - modified.toMicros) ∧
    (now.toMicros - modified.toMicros = t * microsPerDay →
      needs_date_update t now modified = false) := by
  constructor
  · simp only [needs_date_update, decide_eq_true_eq]
    omega
  · intro h
    simp only [needs_date_update, decide_eq_false_iff_not]
    omega

/-- Witness for C6: a file exactly 30 days old is not refreshed. -/
theorem needs_date_update_strict_witness :
    needs_date_update 30 ⟨2025, 7, 11, 0, 0, 0, 0⟩ ⟨2025, 6, 11, 0, 0, 0, 0⟩ = false :=
  (needs_date_update_strict 30 ⟨2025, 7, 11, 0, 0, 0, 0⟩ ⟨2025, 6, 11, 0, 0, 0, 0⟩).2 (by decide)

/-- C1 counterexample: a descriptor classified `add_date` whose modification
date (2020-01-01) differs from the processing date (2025-06-15) gets the
modification date as prefix, not the current date. -/
theorem add_date_prefix_cex :
    needs_rename [".docx"] ".docx" "Recent Document.docx" =
      (true, some RenameReason.add_date) ∧
    get_new_filename "Recent Document.docx" ⟨2020, 1, 1, 12, 0, 0, 0⟩
      (some RenameReason.add_date) = "2020.01.01 Recent Document.docx" ∧
    get_new_filename "Recent Document.docx" ⟨2020, 1, 1, 12, 0, 0, 0⟩
      (some RenameReason.add_date) ≠
      fmtDotted ⟨2025, 6, 15, 9, 30, 0, 0⟩ ++ " " ++ "Recent Document.docx" := by
  refine ⟨by decide, by decide, by decide⟩

/-- C1 amended: for a descriptor classified `add_date`, the new filename is
the descriptor's own modification date formatted `YYYY.MM.DD`, a single
space, and the entire original filename including its extension. -/
theorem add_date_prefix_uses_modified (exts : List String) (ext name : String)
    (modified : PyDateTime)
    (h : needs_rename exts ext name = (true, some RenameReason.add_date)) :
    get_new_filename name modified (some RenameReason.add_date) =
      fmtDotted modified ++ " " ++ name := rfl

/-- Witness for the amended C1. -/
theorem add_date_prefix_uses_modified_witness :
    get_new_filename "Recent Document.docx" ⟨2020, 1, 1, 12, 0, 0, 0⟩
      (some RenameReason.add_date) =
      fmtDotted ⟨2020, 1, 1, 12, 0, 0, 0⟩ ++ " " ++ "Recent Document.docx" :=
  add_date_prefix_uses_modified [".docx"] ".docx" "Recent Document.docx"
    ⟨2020, 1, 1, 12, 0, 0, 0⟩ (by decide)

/-- C4 counterexample: a dotted-dated filename whose extension is not in the
rename set is classified `(false, none)`, not `(false, already_has_dots)`. -/
theorem dotted_reason_depends_on_extension_cex :
    (matchDots "2020.01.01 a.txt").isSome = true ∧
    needs_rename [".docx"] ".txt" "2020.01.01 a.txt" = (false, none) ∧
    needs_rename [".docx"] ".txt" "2020.01.01 a.txt" ≠
      (false, some RenameReason.already_has_dots) := by
  refine ⟨by decide, by decide, by decide⟩

/-- C4 amended: a dotted-dated filename is never renamed; the reason is
`already_has_dots` when the extension is a member of the rename set and
`none` otherwise (the extension test runs first). -/
theorem dotted_never_renamed (exts : List String) (ext name : String)
    (h : (matchDots name).isSome = true) :
    needs_rename exts ext name =
      (false, if exts.contains ext then some RenameReason.already_has_dots else none) := by
  cases hc : exts.contains ext with
  | false => unfold needs_rename; rw [hc]; simp
  | true => unfold needs_rename; rw [hc]; simp [h]

/-- Witness for the amended C4. -/
theorem dotted_never_renamed_witness :
    needs_rename [".docx"] ".docx" "2020.01.01 a.docx" =
      (false, some RenameReason.already_has_dots) := by
  rw [dotted_never_renamed [".docx"] ".docx" "2020.01.01 a.docx" (by decide)]
  decide

/-- C5 counterexample: the stored rename-extension list compares the
descriptor's extension case-sensitively, so `.DOCX` (as a replay CSV can
supply) and `.docx` (as the scan supplies) classify differently. -/
theorem extension_case_sensitivity_cex :
    mkRenameExtensions [".docx"] = [".docx"] ∧
    needs_rename [".docx"] ".docx" "Recent Document.docx" =
      (true, some RenameReason.add_date) ∧
    needs_rename [".docx"] ".DOCX" "Recent Document.docx" = (false, none) ∧
    needs_rename [".docx"] ".DOCX" "Recent Document.docx" ≠
      needs_rename [".docx"] ".docx" "Recent Document.docx" := by
  refine ⟨by decide, by decide, by decide, by decide⟩

/-- C5 amended: an extension that is not a member (by exact string
comparison) of the stored lower-cased rename-extension list yields
`(false, none)`; membership is exact, so only lower-cased descriptor
extensions can match. -/
theorem absent_extension_not_renamed (raw : List String) (ext name : String)
    (h : ext ∉ mkRenameExtensions raw) :
    needs_rename (mkRenameExtensions raw) ext name = (false, none) := by
  have hc : (mkRenameExtensions raw).contains ext = false := by
    simpa using h
  unfold needs_rename
  rw [hc]
  simp

/-- Witness for the amended C5. -/
theorem absent_extension_not_renamed_witness :
    needs_rename (mkRenameExtensions [".docx"]) ".DOCX" "Recent Document.docx" =
      (false, none) :=
  absent_extension_not_renamed [".docx"] ".DOCX" "Recent Document.docx" (by decide)

/-- C2 amended: when a file exists at the destination and the destination
name equals the source name byte-for-byte, `rename_file` returns the
destination path as success, leaves the filesystem unchanged and appends no
error; `process_file`'s flag assignment then marks any such successful
rename step as `renamed = true`. -/
theorem idempotent_rename_no_op (fs : FS) (p : PyPath) (n : String) (r0 : ProcResult)
    (hex : fsExists fs ⟨p.dir, n⟩ = true) (heq : p.name = n) :
    rename_file fs p n = (some ⟨p.dir, n⟩, fs, []) ∧
    (applyRenameResult r0 (rename_file fs p n).1).renamed = true := by
  have h1 : rename_file fs p n = (some ⟨p.dir, n⟩, fs, []) := by
    simp only [rename_file]
    rw [hex]
    simp [heq]
  refine ⟨h1, ?_⟩
  rw [h1]
  rfl

/-- Witness for the amended C2. -/
theorem idempotent_rename_no_op_witness :
    rename_file
        [(⟨"d", "2020.01.01 a.docx"⟩,
          ⟨⟨2020, 1, 1, 0, 0, 0, 0⟩, true, none, none, false, false⟩)]
        ⟨"d", "2020.01.01 a.docx"⟩ "2020.01.01 a.docx"
      = (some ⟨"d", "2020.01.01 a.docx"⟩,
         [(⟨"d", "2020.01.01 a.docx"⟩,
           ⟨⟨2020, 1, 1, 0, 0, 0, 0⟩, true, none, none, false, false⟩)], []) :=
  (idempotent_rename_no_op _ _ _
    (initResult ⟨⟨"d", "2020.01.01 a.docx"⟩, 1, ⟨2020, 1, 1, 0, 0, 0, 0⟩, ".docx"⟩)
    (by decide) (by decide)).1

/-- C2 counterexample: in the byte-for-byte idempotent collision the rename
step reports success with no filesystem change, and the result-row flag
computed from it is `true`, contradicting `renamed = false`. -/
theorem idempotent_rename_marks_renamed_cex :
    (applyRenameResult
        (initResult ⟨⟨"d", "2020.01.01 a.docx"⟩, 1, ⟨2020, 1, 1, 0, 0, 0, 0⟩, ".docx"⟩)
        (rename_file
          [(⟨"d", "2020.01.01 a.docx"⟩,
            ⟨⟨2020, 1, 1, 0, 0, 0, 0⟩, true, none, none, false, false⟩)]
          ⟨"d", "2020.01.01 a.docx"⟩ "2020.01.01 a.docx").1).renamed = true ∧
    (rename_file
        [(⟨"d", "2020.01.01 a.docx"⟩,
          ⟨⟨2020, 1, 1, 0, 0, 0, 0⟩, true, none, none, false, false⟩)]
        ⟨"d", "2020.01.01 a.docx"⟩ "2020.01.01 a.docx").2
      = ([(⟨"d", "2020.01.01 a.docx"⟩,
           ⟨⟨2020, 1, 1, 0, 0, 0, 0⟩, true, none, none, false, false⟩)], []) := by
  refine ⟨by decide, by decide⟩

/-- Helper: when `rename_file` reports success the returned path is
`parent / new_name`. -/
theorem rename_file_some (fs fs2 : FS) (p np : PyPath) (nn : String) (es : List Err)
    (h : rename_file fs p nn = (some np, fs2, es)) : np = ⟨p.dir, nn⟩ := by
  simp only [rename_file] at h
  split at h
  · split at h <;> simp_all
  · split at h
    · simp_all
    · split at h
      · simp_all
      · split at h <;> simp_all

/-- Helper: the recursion equation of `process_files` on a non-empty
list. -/
theorem process_files_cons (cfg : Config) (dry : Bool) (now : PyDateTime) (fs : FS)
    (fi : FileInfo) (rest : List FileInfo) :
    process_files cfg dry now fs (fi :: rest) =
      match process_file cfg dry now fs fi with
      | (r, fs1, es) =>
        match process_files cfg dry now fs1 rest with
        | (rs, fs2, es') => (r :: rs, fs2, es ++ es') := rfl

/-- Helper: a dry-run `process_file` leaves the filesystem untouched. -/
theorem process_file_dry_fs (cfg : Config) (now : PyDateTime) (fs : FS) (fi : FileInfo) :
    (process_file cfg true now fs fi).2.1 = fs := by
  by_cases h1 : (needs_rename cfg.renameExtensions fi.extension fi.path.name).1 <;>
    by_cases h2 : needs_date_update cfg.daysThreshold now fi.modified <;>
      simp only [process_file, renameStep, dateStep, h1, h2, if_true, if_false,
        ite_true, ite_false, Bool.false_eq_true]

/-- Helper: a dry-run over a whole file list leaves the filesystem
untouched. -/
theorem process_files_dry_fs (cfg : Config) (now : PyDateTime) (fs : FS)
    (files : List FileInfo) : (process_files cfg true now fs files).2.1 = fs := by
  induction files generalizing fs with
  | nil => rfl
  | cons fi rest ih =>
    rw [process_files_cons]
    rcases h1 : process_file cfg true now fs fi with ⟨r, fs1, es⟩
    rcases h2 : process_files cfg true now fs1 rest with ⟨rs, fs2, es'⟩
    have e1 : fs1 = fs := by
      have := process_file_dry_fs cfg now fs fi
      rw [h1] at this
      exact this
    have e2 : fs2 = fs1 := by
      have := ih fs1
      rw [h2] at this
      exact this
    simp [e1, e2]
    exact ih fs

/-- Helper: one result row is produced per input descriptor. -/
theorem process_files_length (cfg : Config) (dry : Bool) (now : PyDateTime) (fs : FS)
    (files : List FileInfo) :
    (process_files cfg dry now fs files).1.length = files.length := by
  induction files generalizing fs with
  | nil => rfl
  | cons fi rest ih =>
    rw [process_files_cons]
    rcases h1 : process_file cfg dry now fs fi with ⟨r, fs1, es⟩
    rcases h2 : process_files cfg dry now fs1 rest with ⟨rs, fs2, es'⟩
    have := ih fs1
    rw [h2] at this
    simp [this]
    exact ih fs1

set_option maxHeartbeats 2000000 in
/-- Helper: dry and live `process_file` produce the same result row when the
live run's rename and date-update both succeed. -/
theorem dry_matches_live (cfg : Config) (now : PyDateTime) (fs : FS) (fi : FileInfo)
    (hr : (process_file cfg false now fs fi).1.renamed =
            (needs_rename cfg.renameExtensions fi.extension fi.path.name).1)
    (hd : (process_file cfg false now fs fi).1.date_updated =
            needs_date_update cfg.daysThreshold now fi.modified) :
    (process_file cfg true now fs fi).1 = (process_file cfg false now fs fi).1 := by
  by_cases hnr : (needs_rename cfg.renameExtensions fi.extension fi.path.name).1
  · rcases hrn : rename_file fs fi.path
        (get_new_filename fi.path.name fi.modified
          (needs_rename cfg.renameExtensions fi.extension fi.path.name).2) with ⟨res, fs1, es⟩
    cases res with
    | none =>
      exfalso
      by_cases hnd : needs_date_update cfg.daysThreshold now fi.modified
      · rcases hu : update_file_modified_date fs1 now fi.path with ⟨b, fs2, es2⟩
        cases b <;>
          simp [process_file, renameStep, dateStep, applyRenameResult, hnr, hnd, hrn, hu,
            initResult] at hr
      · simp [process_file, renameStep, dateStep, applyRenameResult, hnr, hnd, hrn,
          initResult] at hr
    | some np =>
      have hnp := rename_file_some _ _ _ _ _ _ hrn
      subst hnp
      by_cases hnd : needs_date_update cfg.daysThreshold now fi.modified
      · rcases hu : update_file_modified_date fs1 now
            (⟨fi.path.dir, get_new_filename fi.path.name fi.modified
              (needs_rename cfg.renameExtensions fi.extension fi.path.name).2⟩ : PyPath)
            with ⟨b, fs2, es2⟩
        cases b with
        | false =>
          exfalso
          simp [process_file, renameStep, dateStep, applyRenameResult, hnr, hnd, hrn, hu, initResult] at hd
        | true =>
          simp [process_file, renameStep, dateStep, applyRenameResult, hnr, hnd, hrn, hu]
      · simp [process_file, renameStep, dateStep, applyRenameResult, hnr, hnd, hrn]
  · by_cases hnd : needs_date_update cfg.daysThreshold now fi.modified
    · rcases hu : update_file_modified_date fs now fi.path with ⟨b, fs2, es2⟩
      cases b with
      | false =>
        exfalso
        simp [process_file, renameStep, dateStep, hnr, hnd, hu, initResult] at hd
      | true =>
        simp [process_file, renameStep, dateStep, hnr, hnd, hu, initResult]
    · simp [process_file, renameStep, dateStep, hnr, hnd]

/-- C3 counterexample: when the computed target name collides with an
existing file, the dry-run row records the computed target as `new_path`
(and `renamed = true`) while a live run over the same initial filesystem
leaves `new_path` at the original path (and `renamed = false`), so the two
ledgers differ. -/
theorem dry_live_collision_cex :
    (process_file ⟨[".docx"], 100000⟩ true ⟨2025, 7, 11, 0, 0, 0, 0⟩
        [(⟨"d", "2020-01-01 a.docx"⟩, ⟨⟨2020, 1, 1, 0, 0, 0, 0⟩, true, none, none, false, false⟩),
         (⟨"d", "2020.01.01 a.docx"⟩, ⟨⟨2020, 1, 1, 0, 0, 0, 0⟩, true, none, none, false, false⟩)]
        ⟨⟨"d", "2020-01-01 a.docx"⟩, 1, ⟨2020, 1, 1, 0, 0, 0, 0⟩, ".docx"⟩).1.new_path
      = ⟨"d", "2020.01.01 a.docx"⟩ ∧
    (process_file ⟨[".docx"], 100000⟩ false ⟨2025, 7, 11, 0, 0, 0, 0⟩
        [(⟨"d", "2020-01-01 a.docx"⟩, ⟨⟨2020, 1, 1, 0, 0, 0, 0⟩, true, none, none, false, false⟩),
         (⟨"d", "2020.01.01 a.docx"⟩, ⟨⟨2020, 1, 1, 0, 0, 0, 0⟩, true, none, none, false, false⟩)]
        ⟨⟨"d", "2020-01-01 a.docx"⟩, 1, ⟨2020, 1, 1, 0, 0, 0, 0⟩, ".docx"⟩).1.new_path
      = ⟨"d", "2020-01-01 a.docx"⟩ ∧
    (process_file ⟨[".docx"], 100000⟩ true ⟨2025, 7, 11, 0, 0, 0, 0⟩
        [(⟨"d", "2020-01-01 a.docx"⟩, ⟨⟨2020, 1, 1, 0, 0, 0, 0⟩, true, none, none, false, false⟩),
         (⟨"d", "2020.01.01 a.docx"⟩, ⟨⟨2020, 1, 1, 0, 0, 0, 0⟩, true, none, none, false, false⟩)]
        ⟨⟨"d", "2020-01-01 a.docx"⟩, 1, ⟨2020, 1, 1, 0, 0, 0, 0⟩, ".docx"⟩).1.new_path
      ≠ (process_file ⟨[".docx"], 100000⟩ false ⟨2025, 7, 11, 0, 0, 0, 0⟩
        [(⟨"d", "2020-01-01 a.docx"⟩, ⟨⟨2020, 1, 1, 0, 0, 0, 0⟩, true, none, none, false, false⟩),
         (⟨"d", "2020.01.01 a.docx"⟩, ⟨⟨2020, 1, 1, 0, 0, 0, 0⟩, true, none, none, false, false⟩)]
        ⟨⟨"d", "2020-01-01 a.docx"⟩, 1, ⟨2020, 1, 1, 0, 0, 0, 0⟩, ".docx"⟩).1.new_path := by
  refine ⟨by decide, by decide, by decide⟩

/-- C3 amended: a dry run changes no filesystem state, produces exactly one
ledger row per input descriptor (the same row count as a live run), and for
every descriptor whose live rename and date-update both succeed, the dry-run
row equals the live row (`new_modified` simulated as the current time);
rows differ only where the live mutations fail, e.g. on a target collision
or over-length name. -/
theorem dry_run_ledger_matches_live (cfg : Config) (now : PyDateTime) :
    (∀ fs files, (process_files cfg true now fs files).2.1 = fs) ∧
    (∀ dry fs files, (process_files cfg dry now fs files).1.length = files.length) ∧
    (∀ fs fi,
      (process_file cfg false now fs fi).1.renamed =
          (needs_rename cfg.renameExtensions fi.extension fi.path.name).1 →
      (process_file cfg false now fs fi).1.date_updated =
          needs_date_update cfg.daysThreshold now fi.modified →
      (process_file cfg true now fs fi).1 = (process_file cfg false now fs fi).1) :=
  ⟨fun fs files => process_files_dry_fs cfg now fs files,
   fun dry fs files => process_files_length cfg dry now fs files,
   fun fs fi hr hd => dry_matches_live cfg now fs fi hr hd⟩

/-- Witness for the amended C3: a successful live scenario where the
dry-run row coincides with the live row. -/
theorem dry_run_ledger_matches_live_witness :
    (process_file ⟨[".docx"], 30⟩ true ⟨2025, 7, 11, 0, 0, 0, 0⟩
        [(⟨"d", "2020-01-01 a.docx"⟩, ⟨⟨2020, 1, 1, 0, 0, 0, 0⟩, true, none, none, false, false⟩)]
        ⟨⟨"d", "2020-01-01 a.docx"⟩, 1, ⟨2020, 1, 1, 0, 0, 0, 0⟩, ".docx"⟩).1
      = (process_file ⟨[".docx"], 30⟩ false ⟨2025, 7, 11, 0, 0, 0, 0⟩
        [(⟨"d", "2020-01-01 a.docx"⟩, ⟨⟨2020, 1, 1, 0, 0, 0, 0⟩, true, none, none, false, false⟩)]
        ⟨⟨"d", "2020-01-01 a.docx"⟩, 1, ⟨2020, 1, 1, 0, 0, 0, 0⟩, ".docx"⟩).1 :=
  (dry_run_ledger_matches_live ⟨[".docx"], 30⟩ ⟨2025, 7, 11, 0, 0, 0, 0⟩).2.2
    [(⟨"d", "2020-01-01 a.docx"⟩, ⟨⟨2020, 1, 1, 0, 0, 0, 0⟩, true, none, none, false, false⟩)]
    ⟨⟨"d", "2020-01-01 a.docx"⟩, 1, ⟨2020, 1, 1, 0, 0, 0, 0⟩, ".docx"⟩
    (by decide) (by decide)

/-- Helper: every failing `rename_file` call appends at least one error. -/
theorem rename_file_none_err (fs fs2 : FS) (p : PyPath) (nn : String) (es : List Err)
    (h : rename_file fs p nn = (none, fs2, es)) : es ≠ [] := by
  simp only [rename_file] at h
  split at h
  · split at h <;>
      first
        | (simp_all; done)
        | (simp only [Prod.mk.injEq] at h; obtain ⟨-, -, h3⟩ := h; subst h3; simp)
  · split at h
    · simp only [Prod.mk.injEq] at h
      obtain ⟨-, -, h3⟩ := h
      subst h3
      simp
    · split at h
      · simp only [Prod.mk.injEq] at h
        obtain ⟨-, -, h3⟩ := h
        subst h3
        simp
      · split at h <;>
          first
            | (simp_all; done)
            | (simp only [Prod.mk.injEq] at h; obtain ⟨-, -, h3⟩ := h; subst h3; simp)

/-- Helper: every failing `update_file_modified_date` call appends at least
one error. -/
theorem update_false_err (fs fs2 : FS) (now : PyDateTime) (p : PyPath) (es : List Err)
    (h : update_file_modified_date fs now p = (false, fs2, es)) : es ≠ [] := by
  simp only [update_file_modified_date] at h
  split at h
  · simp only [Prod.mk.injEq] at h
    obtain ⟨-, -, h3⟩ := h
    subst h3
    simp
  · split at h
    · split at h <;>
        first
          | (simp_all; done)
          | (simp only [Prod.mk.injEq] at h; obtain ⟨-, -, h3⟩ := h; subst h3; simp)
    · split at h
      · simp only [Prod.mk.injEq] at h
        obtain ⟨-, -, h3⟩ := h
        subst h3
        simp
      · split at h <;>
          first
            | (simp_all; done)
            | (simp only [Prod.mk.injEq] at h; obtain ⟨-, -, h3⟩ := h; subst h3; simp)

/-- Helper: when the live rename step fails, the row still materialises with
`renamed = false` and the original path. -/
theorem rename_failure_row (cfg : Config) (now : PyDateTime) (fs fs1 : FS) (fi : FileInfo)
    (es : List Err)
    (hnr : (needs_rename cfg.renameExtensions fi.extension fi.path.name).1 = true)
    (hrn : rename_file fs fi.path
        (get_new_filename fi.path.name fi.modified
          (needs_rename cfg.renameExtensions fi.extension fi.path.name).2) = (none, fs1, es)) :
    (process_file cfg false now fs fi).1.renamed = false ∧
    (process_file cfg false now fs fi).1.new_path = fi.path := by
  by_cases hnd : needs_date_update cfg.daysThreshold now fi.modified
  · rcases hu : update_file_modified_date fs1 now fi.path with ⟨b, fs2, es2⟩
    cases b <;>
      refine ⟨?_, ?_⟩ <;>
      simp [process_file, renameStep, dateStep, applyRenameResult, hnr, hnd, hrn, hu, initResult]
  · refine ⟨?_, ?_⟩ <;>
    simp [process_file, renameStep, dateStep, applyRenameResult, hnr, hnd, hrn, initResult]

/-- C9: per-file failures never escape `process_file`: exactly one result
row is produced per input descriptor regardless of injected faults,
every failing rename or date-update records a non-fatal error, and a failed
rename leaves the row at the original path with `renamed = false` while
processing continues. -/
theorem per_file_failures_recorded :
    (∀ cfg dry now fs files,
      (process_files cfg dry now fs files).1.length = files.length) ∧
    (∀ fs fs2 p nn es, rename_file fs p nn = ((none : Option PyPath), fs2, es) → es ≠ []) ∧
    (∀ fs fs2 now p es,
      update_file_modified_date fs now p = (false, fs2, es) → es ≠ []) ∧
    (∀ cfg now fs fs1 fi es,
      (needs_rename cfg.renameExtensions fi.extension fi.path.name).1 = true →
      rename_file fs fi.path
          (get_new_filename fi.path.name fi.modified
            (needs_rename cfg.renameExtensions fi.extension fi.path.name).2) = (none, fs1, es) →
      (process_file cfg false now fs fi).1.renamed = false ∧
      (process_file cfg false now fs fi).1.new_path = fi.path) :=
  ⟨fun cfg dry now fs files => process_files_length cfg dry now fs files,
   fun fs fs2 p nn es h => rename_file_none_err fs fs2 p nn es h,
   fun fs fs2 now p es h => update_false_err fs fs2 now p es h,
   fun cfg now fs fs1 fi es hnr hrn => rename_failure_row cfg now fs fs1 fi es hnr hrn⟩

/-- Witness for C9: a concrete collision records the error and the row
materialises untouched. -/
theorem per_file_failures_recorded_witness :
    (process_file ⟨[".docx"], 100000⟩ false ⟨2025, 7, 11, 0, 0, 0, 0⟩
        [(⟨"d", "2020-01-01 a.docx"⟩, ⟨⟨2020, 1, 1, 0, 0, 0, 0⟩, true, none, none, false, false⟩),
         (⟨"d", "2020.01.01 a.docx"⟩, ⟨⟨2020, 1, 1, 0, 0, 0, 0⟩, true, none, none, false, false⟩)]
        ⟨⟨"d", "2020-01-01 a.docx"⟩, 1, ⟨2020, 1, 1, 0, 0, 0, 0⟩, ".docx"⟩).1.renamed = false ∧
    (process_file ⟨[".docx"], 100000⟩ false ⟨2025, 7, 11, 0, 0, 0, 0⟩
        [(⟨"d", "2020-01-01 a.docx"⟩, ⟨⟨2020, 1, 1, 0, 0, 0, 0⟩, true, none, none, false, false⟩),
         (⟨"d", "2020.01.01 a.docx"⟩, ⟨⟨2020, 1, 1, 0, 0, 0, 0⟩, true, none, none, false, false⟩)]
        ⟨⟨"d", "2020-01-01 a.docx"⟩, 1, ⟨2020, 1, 1, 0, 0, 0, 0⟩, ".docx"⟩).1.new_path
      = ⟨"d", "2020-01-01 a.docx"⟩ :=
  per_file_failures_recorded.2.2.2 ⟨[".docx"], 100000⟩ ⟨2025, 7, 11, 0, 0, 0, 0⟩
    [(⟨"d", "2020-01-01 a.docx"⟩, ⟨⟨2020, 1, 1, 0, 0, 0, 0⟩, true, none, none, false, false⟩),
     (⟨"d", "2020.01.01 a.docx"⟩, ⟨⟨2020, 1, 1, 0, 0, 0, 0⟩, true, none, none, false, false⟩)]
    [(⟨"d", "2020-01-01 a.docx"⟩, ⟨⟨2020, 1, 1, 0, 0, 0, 0⟩, true, none, none, false, false⟩),
     (⟨"d", "2020.01.01 a.docx"⟩, ⟨⟨2020, 1, 1, 0, 0, 0, 0⟩, true, none, none, false, false⟩)]
    ⟨⟨"d", "2020-01-01 a.docx"⟩, 1, ⟨2020, 1, 1, 0, 0, 0, 0⟩, ".docx"⟩
    [Err.targetExists ⟨"d", "2020.01.01 a.docx"⟩]
    (by decide) (by decide)

/-- Helper: the row loop's accumulators factor out: the files accumulated so
far survive exactly when no later row aborts the load, while the errors
accumulated so far always survive. -/
theorem loadGo_append (fs : FS) (rows : List CsvRow) (acc : List FileInfo)
    (errs : List Err) :
    loadGo fs rows acc errs =
      if csvAborts fs rows then ([], errs ++ (loadGo fs rows [] []).2)
      else (acc ++ (loadGo fs rows [] []).1, errs ++ (loadGo fs rows [] []).2) := by
  induction rows generalizing acc errs with
  | nil => simp [loadGo, csvAborts]
  | cons row rest ih =>
    by_cases hex : fsExists fs row.new_path
    · cases hom : pyStrptime row.original_modified with
      | none =>
        simp only [loadGo, csvAborts, hex, hom, if_true]
        simp only [List.nil_append]
        rw [ih acc (errs ++ [Err.invalidDateCsv row.new_path]), ih [] [Err.invalidDateCsv row.new_path]]
        by_cases hab : csvAborts fs rest <;> simp [hab]
      | some om =>
        cases hnm : pyStrptime row.new_modified with
        | none =>
          simp only [loadGo, csvAborts, hex, hom, hnm, if_true]
          simp only [List.nil_append]
          rw [ih acc (errs ++ [Err.invalidDateCsv row.new_path]),
            ih [] [Err.invalidDateCsv row.new_path]]
          by_cases hab : csvAborts fs rest <;> simp [hab]
        | some nm =>
          cases hsz : pyInt row.size_bytes with
          | none => simp [loadGo, csvAborts, hex, hom, hnm, hsz]
          | some sz =>
            simp only [loadGo, csvAborts, hex, hom, hnm, hsz, if_true]
            simp only [List.nil_append]
            rw [ih (acc ++ [(⟨row.new_path, sz, om, normalizeExt row.extension⟩ : FileInfo)]) errs,
              ih [(⟨row.new_path, sz, om, normalizeExt row.extension⟩ : FileInfo)] []]
            by_cases hab : csvAborts fs rest <;> simp [hab]
    · simp only [loadGo, csvAborts, hex, if_false]
      simp only [List.nil_append]
      rw [ih acc (errs ++ [Err.csvFileNotFound row.new_path]),
        ih [] [Err.csvFileNotFound row.new_path]]
      by_cases hab : csvAborts fs rest <;> simp [hab]

/-- Helper: a replay row whose path is missing on disk is skipped with one
error and the remaining rows still load. -/
theorem load_skip_missing (fs : FS) (row : CsvRow) (rest : List CsvRow)
    (hex : fsExists fs row.new_path = false) :
    load_csv_file_list fs (row :: rest) =
      ((load_csv_file_list fs rest).1,
        Err.csvFileNotFound row.new_path :: (load_csv_file_list fs rest).2) := by
  unfold load_csv_file_list
  have h1 : loadGo fs (row :: rest) [] [] =
      loadGo fs rest [] [Err.csvFileNotFound row.new_path] := by
    simp [loadGo, hex]
  rw [h1, loadGo_append fs rest [] [Err.csvFileNotFound row.new_path]]
  have h2 := loadGo_append fs rest [] []
  by_cases hab : csvAborts fs rest
  · have h3 : (loadGo fs rest [] []).1 = [] := by
      conv_lhs => rw [h2]
      simp [hab]
    simp [hab, h3]
  · simp [hab]

/-- Helper: a replay row with an unparseable timestamp is skipped with one
error and the remaining rows still load. -/
theorem load_skip_bad_timestamp (fs : FS) (row : CsvRow) (rest : List CsvRow)
    (hex : fsExists fs row.new_path = true)
    (hbad : pyStrptime row.original_modified = none ∨ pyStrptime row.new_modified = none) :
    load_csv_file_list fs (row :: rest) =
      ((load_csv_file_list fs rest).1,
        Err.invalidDateCsv row.new_path :: (load_csv_file_list fs rest).2) := by
  unfold load_csv_file_list
  have h1 : loadGo fs (row :: rest) [] [] =
      loadGo fs rest [] [Err.invalidDateCsv row.new_path] := by
    cases hom : pyStrptime row.original_modified with
    | none => simp [loadGo, hex, hom]
    | some om =>
      cases hnm : pyStrptime row.new_modified with
      | none => simp [loadGo, hex, hom, hnm]
      | some nm =>
        exfalso
        rcases hbad with hb | hb
        · rw [hom] at hb; exact Option.noConfusion hb
        · rw [hnm] at hb; exact Option.noConfusion hb
  rw [h1, loadGo_append fs rest [] [Err.invalidDateCsv row.new_path]]
  have h2 := loadGo_append fs rest [] []
  by_cases hab : csvAborts fs rest
  · have h3 : (loadGo fs rest [] []).1 = [] := by
      conv_lhs => rw [h2]
      simp [hab]
    simp [hab, h3]
  · simp [hab]

/-- Helper: an accepted replay row becomes a descriptor built from the
row's columns: `modified` is the parsed `original_modified` column and the
extension is normalized. -/
theorem load_accept_row (fs : FS) (row : CsvRow) (rest : List CsvRow)
    (om nm : PyDateTime) (sz : Int)
    (hex : fsExists fs row.new_path = true)
    (hom : pyStrptime row.original_modified = some om)
    (hnm : pyStrptime row.new_modified = some nm)
    (hsz : pyInt row.size_bytes = some sz)
    (hab : csvAborts fs rest = false) :
    load_csv_file_list fs (row :: rest) =
      ((⟨row.new_path, sz, om, normalizeExt row.extension⟩ : FileInfo) ::
          (load_csv_file_list fs rest).1,
        (load_csv_file_list fs rest).2) := by
  unfold load_csv_file_list
  have h1 : loadGo fs (row :: rest) [] [] =
      loadGo fs rest [(⟨row.new_path, sz, om, normalizeExt row.extension⟩ : FileInfo)] [] := by
    simp [loadGo, hex, hom, hnm, hsz]
  rw [h1, loadGo_append fs rest [(⟨row.new_path, sz, om, normalizeExt row.extension⟩ :
    FileInfo)] []]
  simp [hab]

/-- Helper: the normalized extension always carries a leading dot. -/
theorem normalizeExt_leading_dot (e : String) :
    (normalizeExt e).data.head? = some '.' := by
  unfold normalizeExt
  split
  · next heq => rw [heq]; rfl
  · rfl

/-- C8: replay deserialization skips (with a logged error, continuing with
the remaining rows) any row whose path is missing on disk or whose
timestamps fail to parse against `YYYY-MM-DD HH:MM:SS`; an accepted row
yields a descriptor whose `modified` is the parsed `original_modified`
column and whose extension is normalized to carry a leading dot. -/
theorem replay_row_handling :
    (∀ fs row rest, fsExists fs row.new_path = false →
      load_csv_file_list fs (row :: rest) =
        ((load_csv_file_list fs rest).1,
          Err.csvFileNotFound row.new_path :: (load_csv_file_list fs rest).2)) ∧
    (∀ fs row rest, fsExists fs row.new_path = true →
      pyStrptime row.original_modified = none ∨ pyStrptime row.new_modified = none →
      load_csv_file_list fs (row :: rest) =
        ((load_csv_file_list fs rest).1,
          Err.invalidDateCsv row.new_path :: (load_csv_file_list fs rest).2)) ∧
    (∀ fs row rest om nm sz, fsExists fs row.new_path = true →
      pyStrptime row.original_modified = some om →
      pyStrptime row.new_modified = some nm →
      pyInt row.size_bytes = some sz →
      csvAborts fs rest = false →
      load_csv_file_list fs (row :: rest) =
        ((⟨row.new_path, sz, om, normalizeExt row.extension⟩ : FileInfo) ::
            (load_csv_file_list fs rest).1,
          (load_csv_file_list fs rest).2)) ∧
    (∀ e, (normalizeExt e).data.head? = some '.') :=
  ⟨fun fs row rest hex => load_skip_missing fs row rest hex,
   fun fs row rest hex hbad => load_skip_bad_timestamp fs row rest hex hbad,
   fun fs row rest om nm sz hex hom hnm hsz hab =>
     load_accept_row fs row rest om nm sz hex hom hnm hsz hab,
   fun e => normalizeExt_leading_dot e⟩

/-- Witness for C8: an accepted row's descriptor takes `modified` from the
CSV column (2020-01-01), not the on-disk mtime (2025-01-01), and the
extension gains a leading dot. -/
theorem replay_row_handling_witness :
    load_csv_file_list
        [(⟨"d", "2020.01.01 a.docx"⟩, ⟨⟨2025, 1, 1, 0, 0, 0, 0⟩, true, none, none, false, false⟩)]
        [⟨⟨"d", "2020.01.01 a.docx"⟩, "2020-01-01 00:00:00", "2025-07-11 14:30:00", "docx", "42"⟩]
      = ([(⟨⟨"d", "2020.01.01 a.docx"⟩, 42, ⟨2020, 1, 1, 0, 0, 0, 0⟩, ".docx"⟩ : FileInfo)],
         []) := by
  rw [replay_row_handling.2.2.1
    [(⟨"d", "2020.01.01 a.docx"⟩, ⟨⟨2025, 1, 1, 0, 0, 0, 0⟩, true, none, none, false, false⟩)]
    ⟨⟨"d", "2020.01.01 a.docx"⟩, "2020-01-01 00:00:00", "2025-07-11 14:30:00", "docx", "42"⟩
    [] ⟨2020, 1, 1, 0, 0, 0, 0⟩ ⟨2025, 7, 11, 14, 30, 0, 0⟩ 42
    (by decide) (by decide) (by decide) (by decide) (by decide)]
  decide

/-- Helper: while no row aborts, the row loop distributes over list
concatenation. -/
theorem csv_no_abort_concat (fs : FS) (pre rows : List CsvRow)
    (h : csvAborts fs pre = false) :
    ∀ acc errs, loadGo fs (pre ++ rows) acc errs =
      loadGo fs rows (loadGo fs pre acc errs).1 (loadGo fs pre acc errs).2 := by
  induction pre with
  | nil => intro acc errs; simp [loadGo]
  | cons row rest ih =>
    intro acc errs
    by_cases hex : fsExists fs row.new_path
    · cases hom : pyStrptime row.original_modified with
      | none =>
        have hab : csvAborts fs rest = false := by
          simpa [csvAborts, hex, hom] using h
        simp only [List.cons_append, loadGo, hex, hom, if_true]
        exact ih hab acc (errs ++ [Err.invalidDateCsv row.new_path])
      | some om =>
        cases hnm : pyStrptime row.new_modified with
        | none =>
          have hab : csvAborts fs rest = false := by
            simpa [csvAborts, hex, hom, hnm] using h
          simp only [List.cons_append, loadGo, hex, hom, hnm, if_true]
          exact ih hab acc (errs ++ [Err.invalidDateCsv row.new_path])
        | some nm =>
          cases hsz : pyInt row.size_bytes with
          | none =>
            exfalso
            have : csvAborts fs (row :: rest) = true := by
              simp [csvAborts, hex, hom, hnm, hsz]
            rw [h] at this
            exact Bool.noConfusion this
          | some sz =>
            have hab : csvAborts fs rest = false := by
              simpa [csvAborts, hex, hom, hnm, hsz] using h
            simp only [List.cons_append, loadGo, hex, hom, hnm, hsz, if_true]
            exact ih hab (acc ++ [(⟨row.new_path, sz, om, normalizeExt row.extension⟩ :
              FileInfo)]) errs
    · have hab : csvAborts fs rest = false := by
        simpa [csvAborts, hex] using h
      simp only [List.cons_append, loadGo, hex, if_false]
      exact ih hab acc (errs ++ [Err.csvFileNotFound row.new_path])

/-- C10: an `int()` failure on `size_bytes` in a row that passed the
existence and timestamp checks aborts the whole load: one error is appended
after the errors already accumulated and the returned file list is empty,
dropping every row already read. -/
theorem size_int_error_aborts_load (fs : FS) (pre : List CsvRow) (row : CsvRow)
    (rest : List CsvRow)
    (hpre : csvAborts fs pre = false)
    (hex : fsExists fs row.new_path = true)
    (hom : (pyStrptime row.original_modified).isSome = true)
    (hnm : (pyStrptime row.new_modified).isSome = true)
    (hsz : pyInt row.size_bytes = none) :
    load_csv_file_list fs (pre ++ row :: rest) =
      ([], (load_csv_file_list fs pre).2 ++ [Err.loadCsvFailed]) := by
  unfold load_csv_file_list
  rw [csv_no_abort_concat fs pre (row :: rest) hpre [] []]
  obtain ⟨om, hom'⟩ := Option.isSome_iff_exists.mp hom
  obtain ⟨nm, hnm'⟩ := Option.isSome_iff_exists.mp hnm
  simp [loadGo, hex, hom', hnm', hsz]

/-- Witness for C10: one good row already read is dropped when the next
row's `size_bytes` is not an integer. -/
theorem size_int_error_aborts_load_witness :
    load_csv_file_list
        [(⟨"d", "2020.01.01 a.docx"⟩, ⟨⟨2025, 1, 1, 0, 0, 0, 0⟩, true, none, none, false, false⟩)]
        ([⟨⟨"d", "2020.01.01 a.docx"⟩, "2020-01-01 00:00:00", "2025-07-11 14:30:00", "docx",
            "42"⟩] ++
          (⟨⟨"d", "2020.01.01 a.docx"⟩, "2020-01-01 00:00:00", "2025-07-11 14:30:00", "docx",
            "not-a-number"⟩ : CsvRow) :: [])
      = ([],
         (load_csv_file_list
            [(⟨"d", "2020.01.01 a.docx"⟩,
              ⟨⟨2025, 1, 1, 0, 0, 0, 0⟩, true, none, none, false, false⟩)]
            [⟨⟨"d", "2020.01.01 a.docx"⟩, "2020-01-01 00:00:00", "2025-07-11 14:30:00", "docx",
              "42"⟩]).2 ++ [Err.loadCsvFailed]) := by
  exact size_int_error_aborts_load _ _ _ _ (by decide) (by decide) (by decide) (by decide)
    (by decide)
